import Mathlib

set_option maxHeartbeats 1000000

namespace DataCatalogue

/-- Shallow embedding of the JSON-like values manipulated by the toolkit
(the values produced by json.load and the cells held in pandas frames).
Python booleans, integers and floats are separate constructors; objects are
association lists with string keys, first binding winning on lookup. -/
inductive JValue where
  | null
  | bool (b : Bool)
  | int (n : Int)
  | float (q : ℚ)
  | str (s : String)
  | arr (elems : List JValue)
  | obj (fields : List (String × JValue))

/-- Lookup of a key in an object fields list, first binding wins,
mirroring Python dict access on the embedded objects. -/
def getField : List (String × JValue) → String → Option JValue
  | [], _ => none
  | (k, v) :: rest, key => if k = key then some v else getField rest key

/-- Embedding of the Python d.get(key, default) call: on a dict it returns
the bound value or the default, on any other value it raises AttributeError. -/
def JValue.getAttrD : JValue → String → JValue → Except String JValue
  | .obj fields, k, d => .ok ((getField fields k).getD d)
  | _, _, _ => .error "AttributeError"

/-- Embedding of the Python d[key] subscript: on a dict it returns the bound
value or raises KeyError, on any other value it raises TypeError. -/
def JValue.getItem : JValue → String → Except String JValue
  | .obj fields, k =>
    match getField fields k with
    | some v => .ok v
    | none => .error "KeyError"
  | _, _ => .error "TypeError"

/-- Embedding of the Python test key in d for the embedded objects; on a
non-dict the test raises TypeError. -/
def JValue.hasKey : JValue → String → Except String Bool
  | .obj fields, k => .ok (getField fields k).isSome
  | _, _ => .error "TypeError"

/-- Python truthiness of the embedded values: None, False, zero, the empty
string and empty containers are falsy, everything else is truthy. -/
def JValue.truthy : JValue → Bool
  | .null => false
  | .bool b => b
  | .int n => n != 0
  | .float q => q != 0
  | .str s => s != ""
  | .arr l => !l.isEmpty
  | .obj l => !l.isEmpty

/-- Upper-casing of a string, character by character, modelling the Python
str.upper call on the ASCII enum tokens this program compares against. -/
def pyUpper (s : String) : String := ⟨s.data.map Char.toUpper⟩

/-- Embedding of the Python s.upper() call: defined on strings, AttributeError
on every other value. -/
def pyUpperStr : JValue → Except String String
  | .str s => .ok (pyUpper s)
  | _ => .error "AttributeError"

/-- Embedding of Python seq[0]: first element of a list (IndexError when
empty), first character of a string, KeyError on a dict (the embedded dicts
have string keys, never the integer key 0), TypeError otherwise. -/
def JValue.index0 : JValue → Except String JValue
  | .arr [] => .error "IndexError"
  | .arr (x :: _) => .ok x
  | .str s => if s.isEmpty then .error "IndexError" else .ok (.str (String.singleton s.front))
  | .obj _ => .error "KeyError"
  | _ => .error "TypeError"

/-- Embedding of Python iteration over a value: lists yield their elements,
strings their characters, dicts their keys; other values raise TypeError. -/
def pyIter : JValue → Except String (List JValue)
  | .arr l => .ok l
  | .str s => .ok (s.toList.map (fun c => .str (String.singleton c)))
  | .obj fields => .ok (fields.map (fun kv => .str kv.1))
  | _ => .error "TypeError"

/-- Embedding of Python list or string concatenation with +; mixed or other
operand types raise TypeError. -/
def pyConcat : JValue → JValue → Except String JValue
  | .arr a, .arr b => .ok (.arr (a ++ b))
  | .str a, .str b => .ok (.str (a ++ b))
  | _, _ => .error "TypeError"

mutual

/-- Embedding of the Python equality test between embedded values. Booleans
compare equal to the matching integers and integers to the matching rationals,
as in Python numeric equality; lists compare elementwise. Dict comparison is
modelled fieldwise in order, which agrees with Python on the scalar-only
comparisons this program performs. -/
def JValue.pyEq : JValue → JValue → Bool
  | .null, .null => true
  | .bool a, .bool b => a == b
  | .bool a, .int n => (if a then (1 : Int) else 0) == n
  | .int n, .bool a => n == (if a then (1 : Int) else 0)
  | .bool a, .float q => (if a then (1 : ℚ) else 0) == q
  | .float q, .bool a => q == (if a then (1 : ℚ) else 0)
  | .int a, .int b => a == b
  | .int a, .float b => ((a : ℚ) == b)
  | .float a, .int b => (a == (b : ℚ))
  | .float a, .float b => a == b
  | .str a, .str b => a == b
  | .arr a, .arr b => pyEqList a b
  | .obj a, .obj b => pyEqObj a b
  | _, _ => false

def pyEqList : List JValue → List JValue → Bool
  | [], [] => true
  | a :: as, b :: bs => a.pyEq b && pyEqList as bs
  | _, _ => false

def pyEqObj : List (String × JValue) → List (String × JValue) → Bool
  | [], [] => true
  | (k, v) :: as, (l, w) :: bs => k == l && v.pyEq w && pyEqObj as bs
  | _, _ => false

end

/-- Embedding of the Python str() rendering used inside f-strings. The
program only formats scalar values; container rendering is abbreviated. -/
def pyStr : JValue → String
  | .str s => s
  | .null => "None"
  | .bool true => "True"
  | .bool false => "False"
  | .int n => toString n
  | .float q => toString q
  | .arr _ => "<list>"
  | .obj _ => "<dict>"

/-- Embedding of the NOMINAL branch of determine_value_type, lines 27 to 41:
requires the valueSet key, reads its concept list, and inspects the code of
the first concept. The numeric test isinstance(code, (int, float)) also
accepts Python booleans, since bool is a subclass of int. -/
def nominalBranch (feature : JValue) : Except String String :=
  match feature.hasKey "valueSet" with
  | .error e => .error e
  | .ok false => .error "ValueError: NOMINAL requires valueSet"
  | .ok true =>
    match feature.getItem "valueSet" with
    | .error e => .error e
    | .ok vs =>
      match vs.getAttrD "concept" (.arr []) with
      | .error e => .error e
      | .ok concepts =>
        if concepts.truthy = false then .error "ValueError: NOMINAL requires case in valueSet"
        else
          match concepts.index0 with
          | .error e => .error e
          | .ok c0 =>
            match c0.getAttrD "code" (.str "") with
            | .error e => .error e
            | .ok code =>
              match code with
              | .str _ => .ok "text"
              | .int _ => .ok "decimal"
              | .float _ => .ok "decimal"
              | .bool _ => .ok "decimal"
              | _ => .error "ValueError: unsupported code type"

/-- Embedding of the fallible body of determine_value_type from
datasetMetadata_to_obibaFeaturesDict.py, lines 21 to 53: the code inside the
try block, with each Python exception surfaced in the Except error channel.
The NOMINAL branch is the nominalBranch function above. -/
def determine_value_type_body (feature : JValue) : Except String String :=
  match feature.getItem "name" with
  | .error e => .error e
  | .ok _ =>
    match feature.getAttrD "dataType" (.str "") with
    | .error e => .error e
    | .ok dtv =>
      match pyUpperStr dtv with
      | .error e => .error e
      | .ok data_type =>
        if data_type = "" then .error "ValueError: missing dataType"
        else if data_type = "NOMINAL" then nominalBranch feature
        else
          match data_type with
          | "NUMERIC" => .ok "decimal"
          | "BOOLEAN" => .ok "boolean"
          | "DATETIME" => .ok "datetime"
          | _ => .error "ValueError: unknown dataType"

/-- Embedding of determine_value_type, lines 19 to 57: the try block above
wrapped by the except clause that logs and returns the sentinel error. -/
def determine_value_type (feature : JValue) : String :=
  match determine_value_type_body feature with
  | .ok v => v
  | .error _ => "error"

/-- Result of the resolver once the NOMINAL branch has been selected, with
the sentinel applied; used to state that the dataType comparison only
depends on the upper-cased string. -/
def nominalResult (feature : JValue) : String :=
  match nominalBranch feature with
  | .ok v => v
  | .error _ => "error"

/-- Embedding of the lazy generator search on line 63 of
datasetMetadata_to_obibaFeaturesDict.py: the first element whose name
attribute equals the target, None when the list is exhausted, and the
exception of the first failing element otherwise. -/
def find_feature_named (target : String) : List JValue → Except String (Option JValue)
  | [] => .ok none
  | f :: rest =>
    match f.getAttrD "name" .null with
    | .error e => .error e
    | .ok nm => if nm.pyEq (.str target) then .ok (some f) else find_feature_named target rest

/-- Property of a list element that the feature search of line 63 accepts:
an object whose name field holds exactly the encounter class string. -/
def isEncNamed (f : JValue) : Prop :=
  ∃ ffs, f = JValue.obj ffs ∧ getField ffs "name" = some (.str "encounters_encounterClass")

/-- Embedding of the chained lookup on line 69 that retrieves the first value
of datasetStats.featureStats.encounters_encounterClass.valueSet, every level
defaulting as in the source. -/
def targetCodeOf (entries : JValue) : Except String JValue :=
  match entries.getAttrD "datasetStats" (.obj []) with
  | .error e => .error e
  | .ok ds =>
    match ds.getAttrD "featureStats" (.obj []) with
    | .error e => .error e
    | .ok fstats =>
      match fstats.getAttrD "encounters_encounterClass" (.obj []) with
      | .error e => .error e
      | .ok ec =>
        match ec.getAttrD "valueSet" (.arr [.null]) with
        | .error e => .error e
        | .ok vset => vset.index0

/-- Embedding of the generator search on line 76: the first concept whose
code attribute equals the target code. -/
def find_concept_with_code (target : JValue) : List JValue → Except String (Option JValue)
  | [] => .ok none
  | c :: rest =>
    match c.getAttrD "code" .null with
    | .error e => .error e
    | .ok cd => if cd.pyEq target then .ok (some c) else find_concept_with_code target rest

/-- Embedding of lines 75 and 76 of get_entity_type: the defaulted valueSet
and concept lookups on the found feature followed by the generator search
for a concept carrying the target code. -/
def conceptSearch (enc target_code : JValue) : Except String (Option JValue) :=
  match enc.getAttrD "valueSet" (.obj []) with
  | .error e => .error e
  | .ok vs2 =>
    match vs2.getAttrD "concept" (.arr []) with
    | .error e => .error e
    | .ok conceptsV =>
      match pyIter conceptsV with
      | .error e => .error e
      | .ok cs => find_concept_with_code target_code cs

/-- Embedding of the fallible body of get_entity_type, lines 61 to 80. -/
def get_entity_type_body (entries : JValue) : Except String JValue :=
  match entries.getAttrD "features" (.arr []) with
  | .error e => .error e
  | .ok fv =>
    match pyIter fv with
    | .error e => .error e
    | .ok fs =>
      match find_feature_named "encounters_encounterClass" fs with
      | .error e => .error e
      | .ok none => .ok (.str "participant")
      | .ok (some enc) =>
        if enc.truthy = false then .ok (.str "participant")
        else
          match targetCodeOf entries with
          | .error e => .error e
          | .ok target_code =>
            if target_code.truthy = false then .error "ValueError: cannot find target code"
            else
              match conceptSearch enc target_code with
              | .error e => .error e
              | .ok none => .error "ValueError: target code not found in valueSet"
              | .ok (some m) =>
                if m.truthy then m.getAttrD "display" .null
                else .ok (.str "participant")

/-- Embedding of get_entity_type, lines 59 to 84: the body wrapped by the
except clause that logs and returns the default participant. -/
def get_entity_type (entries : JValue) : JValue :=
  match get_entity_type_body entries with
  | .ok v => v
  | .error _ => .str "participant"

/-- One row of the Variables sheet, the list built on lines 98 to 106 with
the sheet columns of line 186. -/
structure VariableRow where
  table : String
  name : JValue
  valueType : String
  entityType : JValue
  unit : String
  labelEn : String
  script : String

/-- Conversion of a list of embedded values that are all strings. -/
def strList : List JValue → Option (List String)
  | [] => some []
  | .str s :: rest => (strList rest).map (fun l => s :: l)
  | _ => none

/-- Join of a list of strings with a single space, modelling the Python
str.join call. -/
def joinSpace : List String → String
  | [] => ""
  | [s] => s
  | s :: rest => s ++ " " ++ joinSpace rest

/-- Embedding of the Python space.join(v) call: joins a list of strings, the
characters of a string, or the keys of a dict; TypeError otherwise, also when
a list element is not a string. -/
def pyJoinSpace : JValue → Except String String
  | .arr elems =>
    match strList elems with
    | some l => .ok (joinSpace l)
    | none => .error "TypeError"
  | .str s => .ok (joinSpace (s.toList.map String.singleton))
  | .obj fields => .ok (joinSpace (fields.map (fun kv => kv.1)))
  | _ => .error "TypeError"

/-- Removal of leading and trailing whitespace, modelling the Python
str.strip call used on line 95. -/
def pyStrip (s : String) : String :=
  ⟨((s.data.dropWhile Char.isWhitespace).reverse.dropWhile Char.isWhitespace).reverse⟩

/-- Embedding of the body of the inner try of extract_variables, lines 93 to
106: reads the required name key, resolves the value type, builds the label
from description and generatedDescription, and builds the script string. -/
def variableRowBody (table_name : String) (entity_type : JValue) (feature : JValue) :
    Except String VariableRow :=
  match feature.getItem "name" with
  | .error e => .error e
  | .ok name =>
    match feature.getAttrD "description" (.str "") with
    | .error e => .error e
    | .ok desc =>
      match feature.getAttrD "generatedDescription" (.arr []) with
      | .error e => .error e
      | .ok gen =>
        match pyJoinSpace gen with
        | .error e => .error e
        | .ok joined =>
          .ok { table := table_name, name := name,
                valueType := determine_value_type feature,
                entityType := entity_type, unit := "",
                labelEn := pyStrip (pyStr desc ++ " " ++ joined),
                script := "$(\x27" ++ pyStr name ++ "\x27)" }

/-- Embedding of the inner try of extract_variables with its except KeyError
clause, lines 92 to 109: a missing key is logged and the feature skipped,
every other exception propagates. -/
def variableRowCaught (table_name : String) (entity_type : JValue) (feature : JValue) :
    Except String (Option VariableRow) :=
  match variableRowBody table_name entity_type feature with
  | .ok r => .ok (some r)
  | .error e => if e = "KeyError" then .ok none else .error e

/-- Embedding of the loop of extract_variables over the concatenated feature
list, line 91. -/
def variablesLoop (table_name : String) (entity_type : JValue) :
    List JValue → Except String (List VariableRow)
  | [] => .ok []
  | f :: rest =>
    match variableRowCaught table_name entity_type f with
    | .error e => .error e
    | .ok ro =>
      match variablesLoop table_name entity_type rest with
      | .error e => .error e
      | .ok rows => .ok (match ro with | some r => r :: rows | none => rows)

/-- Embedding of the outer try body of extract_variables, lines 90 to 109:
the two list lookups, their concatenation and the loop. -/
def extract_variables_body (entries : JValue) (table_name : String) (entity_type : JValue) :
    Except String (List VariableRow) :=
  match entries.getAttrD "features" (.arr []) with
  | .error e => .error e
  | .ok fv =>
    match entries.getAttrD "outcomes" (.arr []) with
    | .error e => .error e
    | .ok ov =>
      match pyConcat fv ov with
      | .error e => .error e
      | .ok combined =>
        match pyIter combined with
        | .error e => .error e
        | .ok fs => variablesLoop table_name entity_type fs

/-- Embedding of extract_variables, lines 87 to 114: an AttributeError from
the body is re-raised as ValueError, everything else passes through. -/
def extract_variables (entries : JValue) (table_name : String) (entity_type : JValue) :
    Except String (List VariableRow) :=
  match extract_variables_body entries table_name entity_type with
  | .error e => if e = "AttributeError" then .error "ValueError: Invalid entries structure" else .error e
  | .ok rows => .ok rows

/-- One row of the Categories sheet, the list built on lines 124 to 131 with
the sheet columns of line 190; the third sheet column is labelled name but
holds the concept code, and the fourth, labelled code, stays empty. -/
structure CategoryRow where
  table : String
  variableName : JValue
  name : JValue
  code : String
  missing : Int
  labelEn : JValue

/-- Embedding of the body of the inner try of extract_categories, lines 124
to 131: the required feature name and the defaulted concept code and
display. -/
def categoryRowBody (table_name : String) (feature concept : JValue) :
    Except String CategoryRow :=
  match feature.getItem "name" with
  | .error e => .error e
  | .ok nm =>
    match concept.getAttrD "code" (.str "") with
    | .error e => .error e
    | .ok cd =>
      match concept.getAttrD "display" (.str "") with
      | .error e => .error e
      | .ok dp =>
        .ok { table := table_name, variableName := nm, name := cd,
              code := "", missing := 0, labelEn := dp }

/-- Embedding of the inner try of extract_categories with its except
KeyError clause, lines 123 to 133. -/
def categoryRowCaught (table_name : String) (feature concept : JValue) :
    Except String (Option CategoryRow) :=
  match categoryRowBody table_name feature concept with
  | .ok r => .ok (some r)
  | .error e => if e = "KeyError" then .ok none else .error e

/-- Embedding of the loop over the concepts of one selected feature,
line 122. -/
def conceptsLoop (table_name : String) (feature : JValue) :
    List JValue → Except String (List CategoryRow)
  | [] => .ok []
  | c :: rest =>
    match categoryRowCaught table_name feature c with
    | .error e => .error e
    | .ok ro =>
      match conceptsLoop table_name feature rest with
      | .error e => .error e
      | .ok rows => .ok (match ro with | some r => r :: rows | none => rows)

/-- Embedding of the selection test of line 121: the upper-cased dataType
equals NOMINAL and the valueSet key is present; the membership test is only
evaluated when the first conjunct holds. -/
def nominalSelect (feature : JValue) : Except String Bool :=
  match feature.getAttrD "dataType" (.str "") with
  | .error e => .error e
  | .ok dtv =>
    match pyUpperStr dtv with
    | .error e => .error e
    | .ok du => if du = "NOMINAL" then feature.hasKey "valueSet" else .ok false

/-- Embedding of the body of the feature loop of extract_categories, lines
121 and 122: a selected feature contributes one row per concept. -/
def categoriesForFeature (table_name : String) (feature : JValue) :
    Except String (List CategoryRow) :=
  match nominalSelect feature with
  | .error e => .error e
  | .ok false => .ok []
  | .ok true =>
    match feature.getItem "valueSet" with
    | .error e => .error e
    | .ok vs =>
      match vs.getAttrD "concept" (.arr []) with
      | .error e => .error e
      | .ok cv =>
        match pyIter cv with
        | .error e => .error e
        | .ok cs => conceptsLoop table_name feature cs

/-- Embedding of the loop of extract_categories over the features list,
line 120; the outcomes list is never read. -/
def featuresLoop (table_name : String) : List JValue → Except String (List CategoryRow)
  | [] => .ok []
  | f :: rest =>
    match categoriesForFeature table_name f with
    | .error e => .error e
    | .ok rows1 =>
      match featuresLoop table_name rest with
      | .error e => .error e
      | .ok rows2 => .ok (rows1 ++ rows2)

/-- Embedding of the outer try body of extract_categories, lines 119 to
133. -/
def extract_categories_body (entries : JValue) (table_name : String) :
    Except String (List CategoryRow) :=
  match entries.getAttrD "features" (.arr []) with
  | .error e => .error e
  | .ok fv =>
    match pyIter fv with
    | .error e => .error e
    | .ok fs => featuresLoop table_name fs

/-- Embedding of extract_categories, lines 116 to 137: an AttributeError
from the body is re-raised as ValueError. -/
def extract_categories (entries : JValue) (table_name : String) :
    Except String (List CategoryRow) :=
  match extract_categories_body entries table_name with
  | .error e => if e = "AttributeError" then .error "ValueError: Invalid entries structure" else .error e
  | .ok rows => .ok rows

/-- Description string of a feature as the extractor sees it: the defaulted
description field when it is a string, empty otherwise. -/
def descOf (ffs : List (String × JValue)) : String :=
  match getField ffs "description" with
  | some (.str s) => s
  | _ => ""

/-- String entries of the generatedDescription list of a feature. -/
def genOf (ffs : List (String × JValue)) : List String :=
  match getField ffs "generatedDescription" with
  | some (.arr l) => l.filterMap (fun v => match v with | .str s => some s | _ => none)
  | _ => []

/-- Label of a variable row as the spec words it: the description, a space,
the space-joined generatedDescription entries, stripped. -/
def specLabel (ffs : List (String × JValue)) : String :=
  pyStrip (descOf ffs ++ " " ++ joinSpace (genOf ffs))

/-- Script column of a variable row: the fixed-format reference string
embedding the feature name. -/
def specScript (nm : JValue) : String := "$(\x27" ++ pyStr nm ++ "\x27)"

/-- Variable row contributed by one feature, as the spec words it: none when
the name key is missing, otherwise the seven-column row. -/
def specRow (t : String) (ety : JValue) (f : JValue) : Option VariableRow :=
  match f with
  | .obj ffs =>
    match getField ffs "name" with
    | some nm => some { table := t, name := nm,
                        valueType := determine_value_type (.obj ffs),
                        entityType := ety, unit := "", labelEn := specLabel ffs,
                        script := specScript nm }
    | none => none
  | _ => none

/-- Well-formedness of the description field: absent or a string. -/
def DescOk (ffs : List (String × JValue)) : Prop :=
  getField ffs "description" = none ∨ ∃ s, getField ffs "description" = some (.str s)

/-- Well-formedness of the generatedDescription field: absent or a list of
strings. -/
def GenOk (ffs : List (String × JValue)) : Prop :=
  getField ffs "generatedDescription" = none ∨
  ∃ l, getField ffs "generatedDescription" = some (.arr l) ∧ ∀ v ∈ l, ∃ s, v = JValue.str s

/-- Well-formedness of one feature for the variable extractor: an object
whose description and generatedDescription fields, when present, have the
shapes the source formats without a type error. -/
def VarWf (f : JValue) : Prop := ∃ ffs, f = .obj ffs ∧ DescOk ffs ∧ GenOk ffs

/-- The dataType string of a feature, defaulting to the empty string. -/
def dataTypeStr (ffs : List (String × JValue)) : String :=
  match getField ffs "dataType" with
  | some (.str s) => s
  | _ => ""

/-- Category row of one object concept of a feature named nm: the six
columns of the sheet, code and display defaulting to the empty string. -/
def specCatRowFn (t : String) (nm : JValue) : JValue → Option CategoryRow :=
  fun c =>
    match c with
    | .obj cfs => some { table := t, variableName := nm,
                         name := (getField cfs "code").getD (.str ""),
                         code := "", missing := 0,
                         labelEn := (getField cfs "display").getD (.str "") }
    | _ => none

/-- Category rows contributed by one feature, as the spec words it: only an
object feature whose upper-cased dataType is NOMINAL and whose valueSet is
present contributes, one row per (object) concept in order; a feature whose
name key is missing contributes nothing because every one of its concept
rows is skipped. -/
def specCatRows (t : String) (f : JValue) : List CategoryRow :=
  match f with
  | .obj ffs =>
    if pyUpper (dataTypeStr ffs) = "NOMINAL" then
      match getField ffs "valueSet" with
      | some (.obj vsf) =>
        match getField ffs "name" with
        | none => []
        | some nm =>
          (match getField vsf "concept" with
           | some (.arr cs) => cs
           | _ => []).filterMap (specCatRowFn t nm)
      | _ => []
    else []
  | _ => []

/-- Well-formedness of one feature for the category extractor: an object
whose dataType, when present, is a string, and whose valueSet, when present,
is an object whose concept entry, when present, is a list of objects. -/
def CatWf (f : JValue) : Prop :=
  ∃ ffs, f = .obj ffs ∧
    (getField ffs "dataType" = none ∨ ∃ s, getField ffs "dataType" = some (.str s)) ∧
    (getField ffs "valueSet" = none ∨
     ∃ vsf, getField ffs "valueSet" = some (.obj vsf) ∧
       (getField vsf "concept" = none ∨
        ∃ cs, getField vsf "concept" = some (.arr cs) ∧ ∀ c ∈ cs, ∃ cfs, c = JValue.obj cfs))

/-- String name of a feature object, when it has one. -/
def strNameOf (f : JValue) : Option String :=
  match f with
  | .obj ffs =>
    match getField ffs "name" with
    | some (.str s) => some s
    | _ => none
  | _ => none

/-- Name value of a feature object, when present. -/
def nameOfFeature (f : JValue) : Option JValue :=
  match f with
  | .obj ffs => getField ffs "name"
  | _ => none

/-- List of concepts of a feature object, as read by the category
extractor. -/
def conceptsOf (ffs : List (String × JValue)) : List JValue :=
  match getField ffs "valueSet" with
  | some (.obj vsf) =>
    match getField vsf "concept" with
    | some (.arr cs) => cs
    | _ => []
  | _ => []

/-- The code a category row shows for one concept: the defaulted code field
of an object concept. -/
def codeOfConcept (c : JValue) : JValue :=
  match c with
  | .obj cfs => (getField cfs "code").getD (.str "")
  | _ => .null

/-- Identifier columns of datasetFeatures_to_obibaAvailabilityData.py,
line 5. -/
def BASE_COLUMNS : List String := ["pid", "encounterId", "referenceTimePoint", "eventTime", "exitTime"]

/-- One column of a pandas frame: a name and the list of cells, null
standing for both None and NaN. -/
structure Column where
  name : String
  cells : List JValue

/-- Columnar table: the frame read from the input file. -/
abbrev Table := List Column

/-- Embedding of the pandas notna predicate on the embedded cells: null is
the only missing value; in particular the empty string is not missing. -/
def notna : JValue → Bool
  | .null => false
  | _ => true

/-- Embedding of the per-column assignment of lines 42 to 44 of
datasetFeatures_to_obibaAvailabilityData.py: identifier columns pass
through, every other column is replaced by notna cast to int. -/
def transformColumn (col : Column) : Column :=
  if col.name ∈ BASE_COLUMNS then col
  else { name := col.name, cells := col.cells.map (fun c => .int (if notna c then 1 else 0)) }

/-- Outcome of the advisory dictionary validation: skipped when no
dictionary is given, a read warning, a mismatch report, or full agreement. -/
inductive ValidationOutcome where
  | skipped
  | readError (msg : String)
  | mismatch (missingInXls missingInParquet : Finset String)
  | allMatch
deriving DecidableEq

/-- Embedding of validate_dictionary, lines 7 to 30. The attempt to read the
sheet and its name column is passed in as an Except value standing for the
pandas read; any failure of that read is caught and reported, and the two
printed mismatch lists are the two set differences of line 16 and 17. -/
def validate_dictionary (parquet_columns : List String)
    (dictRead : Except String (List String)) : ValidationOutcome :=
  match dictRead with
  | .error e => .readError e
  | .ok dict_columns =>
    let parquet_cols_to_check := parquet_columns.filter (fun c => c ∉ BASE_COLUMNS)
    let missing_in_dict := parquet_cols_to_check.toFinset \ dict_columns.toFinset
    let missing_in_parquet := dict_columns.toFinset \ parquet_cols_to_check.toFinset
    if missing_in_dict ≠ ∅ ∨ missing_in_parquet ≠ ∅ then
      .mismatch missing_in_dict missing_in_parquet
    else .allMatch

/-- Embedding of transform_data, lines 32 to 48: optional validation of the
column names followed by the unconditional binarization; the written frame
is the second component and never depends on the first. -/
def transform_data (df : Table) (dictRead : Option (Except String (List String))) :
    ValidationOutcome × Table :=
  (match dictRead with
   | some d => validate_dictionary (df.map Column.name) d
   | none => .skipped,
   df.map transformColumn)

/-- Rendering of one cell as a CSV field, modelling the pandas to_csv text
form used by parquet_to_csv.py: missing values and the empty string both
render as the empty field. -/
def renderCell : JValue → String
  | .null => ""
  | .str s => s
  | .int n => toString n
  | .bool true => "True"
  | .bool false => "False"
  | .float q => toString q
  | .arr _ => "<list>"
  | .obj _ => "<dict>"

/-- Embedding of parquet_to_csv, lines 8 to 14 of parquet_to_csv.py: the
frame is written as text, one rendered field per cell, column names and
order preserved; the comma framing and quoting layer is lossless and left
external. -/
def parquet_to_csv (df : Table) : List (String × List String) :=
  df.map (fun col => (col.name, col.cells.map renderCell))

/-- Parse of an optionally signed decimal numeral, modelling the integer
inference the pandas CSV reader applies to a field. -/
def digitsVal (cs : List Char) : Option Nat :=
  if cs.isEmpty then none
  else if cs.all Char.isDigit then
    some (cs.foldl (fun a c => a * 10 + (c.toNat - 48)) 0)
  else none

/-- Signed integer inference on one field. -/
def parseIntCell (s : String) : Option Int :=
  match s.data with
  | '-' :: rest => (digitsVal rest).map (fun n => -(n : Int))
  | l => (digitsVal l).map (fun n => (n : Int))

/-- Parse of one CSV field back into a cell, modelling the pandas read_csv
inference: an empty field is missing, a numeral is a number, anything else
is a string. -/
def parseCell (s : String) : JValue :=
  if s = "" then .null
  else
    match parseIntCell s with
    | some n => .int n
    | none => .str s

/-- Re-parse of the written text table, column by column. -/
def read_csv (rendered : List (String × List String)) : Table :=
  rendered.map (fun p => { name := p.1, cells := p.2.map parseCell })

/-- Helper: a successful NOMINAL branch only ever yields text or decimal. -/
theorem nominalBranch_ok {f : JValue} {v : String} (h : nominalBranch f = .ok v) :
    v = "text" ∨ v = "decimal" := by
  unfold nominalBranch at h
  repeat' split at h
  all_goals first
    | (injection h with h2; subst h2; simp)
    | injection h

/-- Helper: a successful resolver body only ever yields one of the four
concrete type names. -/
theorem determine_value_type_body_ok {f : JValue} {v : String}
    (h : determine_value_type_body f = .ok v) :
    v = "text" ∨ v = "decimal" ∨ v = "boolean" ∨ v = "datetime" := by
  unfold determine_value_type_body at h
  repeat' split at h
  all_goals first
    | (rcases nominalBranch_ok h with h1 | h1 <;> simp [h1])
    | (injection h with h2; subst h2; simp)
    | injection h

/-- C1: the Value-Type Resolver always returns one of text, decimal,
boolean, datetime or error, and follows the ordered rules of the spec: a
missing or empty dataType gives error; NOMINAL with a missing valueSet or a
missing or empty concept list gives error, a string first-concept code gives
text, a numeric (integer or float) first-concept code gives decimal, and any
other first-concept code type gives error; NUMERIC gives decimal, BOOLEAN
gives boolean, DATETIME gives datetime; any other dataType gives error.
Every failure path yields the sentinel error: the resolver is a total
function and never propagates an exception. -/
theorem C1_value_type_resolver :
    (∀ f : JValue,
      determine_value_type f ∈ (["text", "decimal", "boolean", "datetime", "error"] : List String)) ∧
    (∀ fields : List (String × JValue),
      (getField fields "dataType" = none ∨ getField fields "dataType" = some (.str "")) →
      determine_value_type (.obj fields) = "error") ∧
    (∀ fields : List (String × JValue), (getField fields "name").isSome →
      getField fields "dataType" = some (.str "NOMINAL") →
      getField fields "valueSet" = none →
      determine_value_type (.obj fields) = "error") ∧
    (∀ fields vsf : List (String × JValue), (getField fields "name").isSome →
      getField fields "dataType" = some (.str "NOMINAL") →
      getField fields "valueSet" = some (.obj vsf) →
      (getField vsf "concept" = none ∨ getField vsf "concept" = some (.arr [])) →
      determine_value_type (.obj fields) = "error") ∧
    (∀ (fields vsf c0f : List (String × JValue)) (rest : List JValue),
      (getField fields "name").isSome →
      getField fields "dataType" = some (.str "NOMINAL") →
      getField fields "valueSet" = some (.obj vsf) →
      getField vsf "concept" = some (.arr (.obj c0f :: rest)) →
      ((∀ s, getField c0f "code" = some (.str s) → determine_value_type (.obj fields) = "text") ∧
       (∀ n : Int, getField c0f "code" = some (.int n) → determine_value_type (.obj fields) = "decimal") ∧
       (∀ q : ℚ, getField c0f "code" = some (.float q) → determine_value_type (.obj fields) = "decimal") ∧
       (getField c0f "code" = some .null → determine_value_type (.obj fields) = "error") ∧
       (∀ l, getField c0f "code" = some (.arr l) → determine_value_type (.obj fields) = "error") ∧
       (∀ ofl, getField c0f "code" = some (.obj ofl) → determine_value_type (.obj fields) = "error"))) ∧
    (∀ fields : List (String × JValue), (getField fields "name").isSome →
      getField fields "dataType" = some (.str "NUMERIC") →
      determine_value_type (.obj fields) = "decimal") ∧
    (∀ fields : List (String × JValue), (getField fields "name").isSome →
      getField fields "dataType" = some (.str "BOOLEAN") →
      determine_value_type (.obj fields) = "boolean") ∧
    (∀ fields : List (String × JValue), (getField fields "name").isSome →
      getField fields "dataType" = some (.str "DATETIME") →
      determine_value_type (.obj fields) = "datetime") ∧
    (∀ (fields : List (String × JValue)) (d : String),
      getField fields "dataType" = some (.str d) →
      pyUpper d ∉ (["NOMINAL", "NUMERIC", "BOOLEAN", "DATETIME"] : List String) →
      determine_value_type (.obj fields) = "error") := by
  refine ⟨?_, ?_, ?_, ?_, ?_, ?_, ?_, ?_, ?_⟩
  · intro f
    unfold determine_value_type
    cases h : determine_value_type_body f with
    | ok v => rcases determine_value_type_body_ok h with h1 | h1 | h1 | h1 <;> simp [h1]
    | error e => simp
  · intro fields h
    cases hn : getField fields "name" with
    | none =>
      rcases h with h | h <;>
        simp [determine_value_type, determine_value_type_body, JValue.getItem, hn]
    | some nm =>
      rcases h with h | h <;>
        simp [determine_value_type, determine_value_type_body, JValue.getItem,
          JValue.getAttrD, pyUpperStr, hn, h] <;> rfl
  · intro fields hname h hvs
    rcases Option.isSome_iff_exists.mp hname with ⟨nm, hnm⟩
    simp [determine_value_type, determine_value_type_body, nominalBranch, JValue.getItem,
      JValue.getAttrD, JValue.hasKey, pyUpperStr, hnm, h, hvs]
    rfl
  · intro fields vsf hname h hvs hcc
    rcases Option.isSome_iff_exists.mp hname with ⟨nm, hnm⟩
    rcases hcc with hcc | hcc <;>
      simp [determine_value_type, determine_value_type_body, nominalBranch, JValue.getItem,
        JValue.getAttrD, JValue.hasKey, pyUpperStr, JValue.truthy, hnm, h, hvs, hcc] <;>
      rfl
  · intro fields vsf c0f rest hname h hvs hcc
    rcases Option.isSome_iff_exists.mp hname with ⟨nm, hnm⟩
    refine ⟨fun s hcode => ?_, fun n hcode => ?_, fun q hcode => ?_, fun hcode => ?_,
      fun l hcode => ?_, fun ofl hcode => ?_⟩ <;>
      simp [determine_value_type, determine_value_type_body, nominalBranch, JValue.getItem,
        JValue.getAttrD, JValue.hasKey, pyUpperStr, JValue.index0, JValue.truthy,
        hnm, h, hvs, hcc, hcode] <;>
      rfl
  · intro fields hname h
    rcases Option.isSome_iff_exists.mp hname with ⟨nm, hnm⟩
    simp [determine_value_type, determine_value_type_body, JValue.getItem,
      JValue.getAttrD, pyUpperStr, hnm, h]
    rfl
  · intro fields hname h
    rcases Option.isSome_iff_exists.mp hname with ⟨nm, hnm⟩
    simp [determine_value_type, determine_value_type_body, JValue.getItem,
      JValue.getAttrD, pyUpperStr, hnm, h]
    rfl
  · intro fields hname h
    rcases Option.isSome_iff_exists.mp hname with ⟨nm, hnm⟩
    simp [determine_value_type, determine_value_type_body, JValue.getItem,
      JValue.getAttrD, pyUpperStr, hnm, h]
    rfl
  · intro fields d h hno
    simp only [List.mem_cons, List.not_mem_nil, or_false, not_or] at hno
    obtain ⟨h1, h2, h3, h4⟩ := hno
    cases hn : getField fields "name" with
    | none => simp [determine_value_type, determine_value_type_body, JValue.getItem, hn]
    | some nm =>
      by_cases he : pyUpper d = ""
      · simp [determine_value_type, determine_value_type_body, JValue.getItem,
          JValue.getAttrD, pyUpperStr, hn, h, he]
      · simp only [determine_value_type, determine_value_type_body, JValue.getItem,
          JValue.getAttrD, pyUpperStr, hn, h, Option.getD_some]
        rw [if_neg he, if_neg h1]

/-- Witness for C1: the conjuncts evaluated at concrete features, covering a
numeric dataType, a missing dataType, a string-coded NOMINAL feature and an
unknown dataType. -/
theorem C1_value_type_resolver_witness :
    determine_value_type (.obj [("name", .str "age"), ("dataType", .str "NUMERIC")]) = "decimal" ∧
    determine_value_type (.obj [("name", .str "f")]) = "error" ∧
    determine_value_type (.obj [("name", .str "s"), ("dataType", .str "NOMINAL"),
      ("valueSet", .obj [("concept", .arr [.obj [("code", .str "5")]])])]) = "text" ∧
    determine_value_type (.obj [("name", .str "g"), ("dataType", .str "STRANGE")]) = "error" :=
  ⟨C1_value_type_resolver.2.2.2.2.2.1 [("name", .str "age"), ("dataType", .str "NUMERIC")]
      (by rfl) (by rfl),
   C1_value_type_resolver.2.1 [("name", .str "f")] (Or.inl rfl),
   (C1_value_type_resolver.2.2.2.2.1 [("name", .str "s"), ("dataType", .str "NOMINAL"),
      ("valueSet", .obj [("concept", .arr [.obj [("code", .str "5")]])])]
      [("concept", .arr [.obj [("code", .str "5")]])] [("code", .str "5")] []
      (by rfl) (by rfl) (by rfl) (by rfl)).1 "5" (by rfl),
   C1_value_type_resolver.2.2.2.2.2.2.2.2 [("name", .str "g"), ("dataType", .str "STRANGE")]
      "STRANGE" (by rfl) (by decide)⟩

/-- C9: a NOMINAL feature whose first concept code is a Python boolean
resolves to decimal, not error, because isinstance of a bool against int is
true in Python; the embedding gives the bool constructor the decimal
outcome accordingly. -/
theorem C9_boolean_code_is_decimal :
    ∀ (fields vsf c0f : List (String × JValue)) (rest : List JValue) (b : Bool),
      (getField fields "name").isSome →
      getField fields "dataType" = some (.str "NOMINAL") →
      getField fields "valueSet" = some (.obj vsf) →
      getField vsf "concept" = some (.arr (.obj c0f :: rest)) →
      getField c0f "code" = some (.bool b) →
      determine_value_type (.obj fields) = "decimal" := by
  intro fields vsf c0f rest b hname h hvs hcc hcode
  rcases Option.isSome_iff_exists.mp hname with ⟨nm, hnm⟩
  simp [determine_value_type, determine_value_type_body, nominalBranch, JValue.getItem,
    JValue.getAttrD, JValue.hasKey, pyUpperStr, JValue.index0, JValue.truthy,
    hnm, h, hvs, hcc, hcode]
  rfl

/-- Witness for C9: the True-coded and False-coded concrete features both
resolve to decimal. -/
theorem C9_boolean_code_is_decimal_witness :
    determine_value_type (.obj [("name", .str "flag"), ("dataType", .str "NOMINAL"),
      ("valueSet", .obj [("concept", .arr [.obj [("code", .bool true)]])])]) = "decimal" ∧
    determine_value_type (.obj [("name", .str "flag"), ("dataType", .str "NOMINAL"),
      ("valueSet", .obj [("concept", .arr [.obj [("code", .bool false)]])])]) = "decimal" :=
  ⟨C9_boolean_code_is_decimal [("name", .str "flag"), ("dataType", .str "NOMINAL"),
      ("valueSet", .obj [("concept", .arr [.obj [("code", .bool true)]])])]
      [("concept", .arr [.obj [("code", .bool true)]])] [("code", .bool true)] [] true
      (by rfl) (by rfl) (by rfl) (by rfl) (by rfl),
   C9_boolean_code_is_decimal [("name", .str "flag"), ("dataType", .str "NOMINAL"),
      ("valueSet", .obj [("concept", .arr [.obj [("code", .bool false)]])])]
      [("concept", .arr [.obj [("code", .bool false)]])] [("code", .bool false)] [] false
      (by rfl) (by rfl) (by rfl) (by rfl) (by rfl)⟩

/-- C10: the dataType comparison is case-insensitive in both consumers: the
resolver upper-cases dataType, so any letter case of numeric, boolean,
datetime resolves to the corresponding value type, any letter case of
nominal selects the NOMINAL branch, and the category extractor upper-cases
dataType the same way in its selection test. -/
theorem C10_case_insensitive_dataType :
    (∀ (fields : List (String × JValue)) (s : String), (getField fields "name").isSome →
      getField fields "dataType" = some (.str s) → pyUpper s = "NUMERIC" →
      determine_value_type (.obj fields) = "decimal") ∧
    (∀ (fields : List (String × JValue)) (s : String), (getField fields "name").isSome →
      getField fields "dataType" = some (.str s) → pyUpper s = "BOOLEAN" →
      determine_value_type (.obj fields) = "boolean") ∧
    (∀ (fields : List (String × JValue)) (s : String), (getField fields "name").isSome →
      getField fields "dataType" = some (.str s) → pyUpper s = "DATETIME" →
      determine_value_type (.obj fields) = "datetime") ∧
    (∀ (fields : List (String × JValue)) (s : String), (getField fields "name").isSome →
      getField fields "dataType" = some (.str s) → pyUpper s = "NOMINAL" →
      determine_value_type (.obj fields) = nominalResult (.obj fields)) ∧
    (∀ (fields : List (String × JValue)) (s : String),
      getField fields "dataType" = some (.str s) → pyUpper s = "NOMINAL" →
      nominalSelect (.obj fields) = .ok (getField fields "valueSet").isSome) := by
  refine ⟨?_, ?_, ?_, ?_, ?_⟩
  · intro fields s hname h hu
    rcases Option.isSome_iff_exists.mp hname with ⟨nm, hnm⟩
    simp [determine_value_type, determine_value_type_body, JValue.getItem,
      JValue.getAttrD, pyUpperStr, hnm, h, hu]
  · intro fields s hname h hu
    rcases Option.isSome_iff_exists.mp hname with ⟨nm, hnm⟩
    simp [determine_value_type, determine_value_type_body, JValue.getItem,
      JValue.getAttrD, pyUpperStr, hnm, h, hu]
  · intro fields s hname h hu
    rcases Option.isSome_iff_exists.mp hname with ⟨nm, hnm⟩
    simp [determine_value_type, determine_value_type_body, JValue.getItem,
      JValue.getAttrD, pyUpperStr, hnm, h, hu]
  · intro fields s hname h hu
    rcases Option.isSome_iff_exists.mp hname with ⟨nm, hnm⟩
    simp only [determine_value_type, determine_value_type_body, JValue.getItem,
      JValue.getAttrD, pyUpperStr, hnm, h, Option.getD_some, hu]
    cases hb : nominalBranch (.obj fields) <;> simp [nominalResult, hb]
  · intro fields s h hu
    simp [nominalSelect, JValue.getAttrD, JValue.hasKey, pyUpperStr, h, hu]

/-- Witness for C10: lower-case dataType spellings evaluated concretely. -/
theorem C10_case_insensitive_dataType_witness :
    determine_value_type (.obj [("name", .str "a"), ("dataType", .str "numeric")]) = "decimal" ∧
    determine_value_type (.obj [("name", .str "b"), ("dataType", .str "Boolean")]) = "boolean" ∧
    determine_value_type (.obj [("name", .str "c"), ("dataType", .str "dateTime")]) = "datetime" ∧
    determine_value_type (.obj [("name", .str "d"), ("dataType", .str "nominal"),
      ("valueSet", .obj [("concept", .arr [.obj [("code", .str "x")]])])])
      = nominalResult (.obj [("name", .str "d"), ("dataType", .str "nominal"),
      ("valueSet", .obj [("concept", .arr [.obj [("code", .str "x")]])])]) ∧
    nominalSelect (.obj [("name", .str "e"), ("dataType", .str "Nominal")]) = .ok false :=
  ⟨C10_case_insensitive_dataType.1 [("name", .str "a"), ("dataType", .str "numeric")] "numeric"
      (by rfl) (by rfl) (by decide),
   C10_case_insensitive_dataType.2.1 [("name", .str "b"), ("dataType", .str "Boolean")] "Boolean"
      (by rfl) (by rfl) (by decide),
   C10_case_insensitive_dataType.2.2.1 [("name", .str "c"), ("dataType", .str "dateTime")] "dateTime"
      (by rfl) (by rfl) (by decide),
   C10_case_insensitive_dataType.2.2.2.1 [("name", .str "d"), ("dataType", .str "nominal"),
      ("valueSet", .obj [("concept", .arr [.obj [("code", .str "x")]])])] "nominal"
      (by rfl) (by rfl) (by decide),
   C10_case_insensitive_dataType.2.2.2.2 [("name", .str "e"), ("dataType", .str "Nominal")] "Nominal"
      (by rfl) (by decide)⟩

theorem pyEq_str_iff (v : JValue) (t : String) : v.pyEq (.str t) = true ↔ v = .str t := by
  cases v <;> simp [JValue.pyEq]

theorem pyEq_null_iff (v : JValue) : JValue.pyEq .null v = true ↔ v = .null := by
  cases v <;> simp [JValue.pyEq]

theorem getField_some_ne_nil {fs : List (String × JValue)} {k : String} {v : JValue}
    (h : getField fs k = some v) : fs.isEmpty = false := by
  cases fs <;> simp_all [getField]

theorem find_feature_named_no_match (t : String) (fs : List JValue)
    (h : ∀ f ∈ fs, ∀ ffs, f = JValue.obj ffs → getField ffs "name" ≠ some (.str t)) :
    find_feature_named t fs = .ok none ∨ ∃ e, find_feature_named t fs = .error e := by
  induction fs with
  | nil => left; rfl
  | cons f rest ih =>
    have hf := h f (List.mem_cons_self f rest)
    have hrest : ∀ g ∈ rest, ∀ ffs, g = JValue.obj ffs → getField ffs "name" ≠ some (.str t) :=
      fun g hg => h g (List.mem_cons_of_mem f hg)
    cases f with
    | obj ffs =>
      have hne : ((getField ffs "name").getD .null).pyEq (.str t) = false := by
        cases hg : getField ffs "name" with
        | none => simp [JValue.pyEq]
        | some w =>
          simp only [Option.getD_some]
          by_contra hw
          rw [Bool.not_eq_false] at hw
          exact hf ffs rfl (by rw [hg, (pyEq_str_iff w t).mp hw])
      simp only [find_feature_named, JValue.getAttrD, hne]
      simpa using ih hrest
    | null => right; exact ⟨_, rfl⟩
    | bool b => right; exact ⟨_, rfl⟩
    | int n => right; exact ⟨_, rfl⟩
    | float q => right; exact ⟨_, rfl⟩
    | str s => right; exact ⟨_, rfl⟩
    | arr l => right; exact ⟨_, rfl⟩

theorem find_feature_named_found {t : String} {fs : List JValue} {enc : JValue}
    (h : find_feature_named t fs = .ok (some enc)) :
    ∃ efs, enc = .obj efs ∧ getField efs "name" = some (.str t) := by
  induction fs with
  | nil => simp [find_feature_named] at h
  | cons f rest ih =>
    cases f with
    | obj ffs =>
      simp only [find_feature_named, JValue.getAttrD] at h
      by_cases hp : ((getField ffs "name").getD .null).pyEq (.str t) = true
      · rw [if_pos hp] at h
        injection h with h2
        injection h2 with h3
        subst h3
        refine ⟨ffs, rfl, ?_⟩
        cases hg : getField ffs "name" with
        | none => rw [hg] at hp; simp [JValue.pyEq] at hp
        | some w =>
          rw [hg] at hp
          simp only [Option.getD_some] at hp
          rw [(pyEq_str_iff w t).mp hp]
      · rw [if_neg hp] at h
        exact ih h
    | null => simp [find_feature_named, JValue.getAttrD] at h
    | bool b => simp [find_feature_named, JValue.getAttrD] at h
    | int n => simp [find_feature_named, JValue.getAttrD] at h
    | float q => simp [find_feature_named, JValue.getAttrD] at h
    | str s => simp [find_feature_named, JValue.getAttrD] at h
    | arr l => simp [find_feature_named, JValue.getAttrD] at h

theorem find_concept_with_code_found {target : JValue} {cs : List JValue} {m : JValue}
    (h : find_concept_with_code target cs = .ok (some m)) :
    ∃ mfs, m = .obj mfs ∧ ((getField mfs "code").getD .null).pyEq target = true := by
  induction cs with
  | nil => simp [find_concept_with_code] at h
  | cons c rest ih =>
    cases c with
    | obj cfs =>
      simp only [find_concept_with_code, JValue.getAttrD] at h
      by_cases hp : ((getField cfs "code").getD .null).pyEq target = true
      · rw [if_pos hp] at h
        injection h with h2
        injection h2 with h3
        subst h3
        exact ⟨cfs, rfl, hp⟩
      · rw [if_neg hp] at h
        exact ih h
    | null => simp [find_concept_with_code, JValue.getAttrD] at h
    | bool b => simp [find_concept_with_code, JValue.getAttrD] at h
    | int n => simp [find_concept_with_code, JValue.getAttrD] at h
    | float q => simp [find_concept_with_code, JValue.getAttrD] at h
    | str s => simp [find_concept_with_code, JValue.getAttrD] at h
    | arr l => simp [find_concept_with_code, JValue.getAttrD] at h

theorem conceptSearch_found {enc tc m : JValue} (h : conceptSearch enc tc = .ok (some m)) :
    ∃ mfs, m = .obj mfs ∧ ((getField mfs "code").getD .null).pyEq tc = true := by
  unfold conceptSearch at h
  repeat' split at h
  all_goals try (injection h)
  exact find_concept_with_code_found h

/-- C3: the Entity-Type Resolver returns the default participant whenever
the descriptor has no feature named exactly encounters_encounterClass, and
when the feature exists but the target code from
datasetStats.featureStats.encounters_encounterClass.valueSet is missing or
falsy, or no concept of the feature carries a code equal to it; when a
concept matches, the resolver returns the display value of that concept.
Every internal failure is caught: an erroring body still yields the default
and nothing escapes the function. -/
theorem C3_entity_type_resolver :
    (∀ (entries : JValue) (e : String), get_entity_type_body entries = .error e →
      get_entity_type entries = .str "participant") ∧
    (∀ fields : List (String × JValue), getField fields "features" = none →
      get_entity_type (.obj fields) = .str "participant") ∧
    (∀ (fields : List (String × JValue)) (fs : List JValue),
      getField fields "features" = some (.arr fs) →
      (∀ f ∈ fs, ¬ isEncNamed f) →
      get_entity_type (.obj fields) = .str "participant") ∧
    (∀ (fields : List (String × JValue)) (fs : List JValue) (enc : JValue),
      getField fields "features" = some (.arr fs) →
      find_feature_named "encounters_encounterClass" fs = .ok (some enc) →
      ((∃ e, targetCodeOf (.obj fields) = .error e) ∨
       (∃ tc, targetCodeOf (.obj fields) = .ok tc ∧ tc.truthy = false)) →
      get_entity_type (.obj fields) = .str "participant") ∧
    (∀ (fields : List (String × JValue)) (fs : List JValue) (enc tc : JValue),
      getField fields "features" = some (.arr fs) →
      find_feature_named "encounters_encounterClass" fs = .ok (some enc) →
      targetCodeOf (.obj fields) = .ok tc → tc.truthy = true →
      conceptSearch enc tc = .ok none →
      get_entity_type (.obj fields) = .str "participant") ∧
    (∀ (fields : List (String × JValue)) (fs : List JValue) (enc tc : JValue)
       (mfs : List (String × JValue)),
      getField fields "features" = some (.arr fs) →
      find_feature_named "encounters_encounterClass" fs = .ok (some enc) →
      targetCodeOf (.obj fields) = .ok tc → tc.truthy = true →
      conceptSearch enc tc = .ok (some (.obj mfs)) →
      get_entity_type (.obj fields) = (getField mfs "display").getD .null) := by
  refine ⟨?_, ?_, ?_, ?_, ?_, ?_⟩
  · intro entries e h
    simp [get_entity_type, h]
  · intro fields h
    simp [get_entity_type, get_entity_type_body, JValue.getAttrD, h, pyIter, find_feature_named]
  · intro fields fs hfeat h
    have h2 : ∀ f ∈ fs, ∀ ffs, f = JValue.obj ffs →
        getField ffs "name" ≠ some (.str "encounters_encounterClass") :=
      fun f hf ffs hob hname => (h f hf) ⟨ffs, hob, hname⟩
    rcases find_feature_named_no_match "encounters_encounterClass" fs h2 with hfind | ⟨e, hfind⟩ <;>
      simp [get_entity_type, get_entity_type_body, JValue.getAttrD, hfeat, pyIter, hfind]
  · intro fields fs enc hfeat hfind htc
    obtain ⟨efs, hef, hname⟩ := find_feature_named_found hfind
    have htr : enc.truthy = true := by
      rw [hef]; simp [JValue.truthy, getField_some_ne_nil hname]
    rcases htc with ⟨e, htc⟩ | ⟨tc, htc, htcf⟩
    · simp [get_entity_type, get_entity_type_body, JValue.getAttrD, hfeat, pyIter,
        hfind, htr, htc]
    · simp [get_entity_type, get_entity_type_body, JValue.getAttrD, hfeat, pyIter,
        hfind, htr, htc, htcf]
  · intro fields fs enc tc hfeat hfind htc htct hcs
    obtain ⟨efs, hef, hname⟩ := find_feature_named_found hfind
    have htr : enc.truthy = true := by
      rw [hef]; simp [JValue.truthy, getField_some_ne_nil hname]
    simp [get_entity_type, get_entity_type_body, JValue.getAttrD, hfeat, pyIter,
      hfind, htr, htc, htct, hcs]
  · intro fields fs enc tc mfs hfeat hfind htc htct hcs
    obtain ⟨efs, hef, hname⟩ := find_feature_named_found hfind
    have htr : enc.truthy = true := by
      rw [hef]; simp [JValue.truthy, getField_some_ne_nil hname]
    obtain ⟨mfs2, hm2, hpeq⟩ := conceptSearch_found hcs
    injection hm2 with h2
    subst h2
    have hmtr : (JValue.obj mfs).truthy = true := by
      cases hg : getField mfs "code" with
      | none =>
        rw [hg] at hpeq
        simp only [Option.getD_none] at hpeq
        rw [(pyEq_null_iff tc).mp hpeq] at htct
        simp [JValue.truthy] at htct
      | some w => simp [JValue.truthy, getField_some_ne_nil hg]
    simp [get_entity_type, get_entity_type_body, JValue.getAttrD, hfeat, pyIter,
      hfind, htr, htc, htct, hcs, hmtr]

/-- Witness for C3: the conjuncts evaluated on concrete descriptors: a
non-dict input, a descriptor without the encounter feature, one with the
feature but no statistics, and a full resolution to ambulatory. -/
theorem C3_entity_type_resolver_witness :
    get_entity_type .null = .str "participant" ∧
    get_entity_type (.obj []) = .str "participant" ∧
    get_entity_type (.obj [("features", .arr [])]) = .str "participant" ∧
    get_entity_type (.obj [("features", .arr [.obj [("name", .str "encounters_encounterClass")]])])
      = .str "participant" ∧
    get_entity_type (.obj [
      ("features", .arr [.obj [("name", .str "encounters_encounterClass"),
        ("valueSet", .obj [("concept", .arr [.obj [("code", .str "AMB"),
          ("display", .str "ambulatory")]])])]]),
      ("datasetStats", .obj [("featureStats", .obj [("encounters_encounterClass",
        .obj [("valueSet", .arr [.str "AMB"])])])])]) = .str "ambulatory" :=
  ⟨C3_entity_type_resolver.1 .null "AttributeError" rfl,
   C3_entity_type_resolver.2.1 [] rfl,
   C3_entity_type_resolver.2.2.1 [("features", .arr [])] [] rfl (by simp),
   C3_entity_type_resolver.2.2.2.1 [("features", .arr [.obj [("name", .str "encounters_encounterClass")]])]
     [.obj [("name", .str "encounters_encounterClass")]]
     (.obj [("name", .str "encounters_encounterClass")]) rfl rfl
     (Or.inr ⟨.null, rfl, rfl⟩),
   C3_entity_type_resolver.2.2.2.2.2 [
      ("features", .arr [.obj [("name", .str "encounters_encounterClass"),
        ("valueSet", .obj [("concept", .arr [.obj [("code", .str "AMB"),
          ("display", .str "ambulatory")]])])]]),
      ("datasetStats", .obj [("featureStats", .obj [("encounters_encounterClass",
        .obj [("valueSet", .arr [.str "AMB"])])])])]
     [.obj [("name", .str "encounters_encounterClass"),
        ("valueSet", .obj [("concept", .arr [.obj [("code", .str "AMB"),
          ("display", .str "ambulatory")]])])]]
     (.obj [("name", .str "encounters_encounterClass"),
        ("valueSet", .obj [("concept", .arr [.obj [("code", .str "AMB"),
          ("display", .str "ambulatory")]])])])
     (.str "AMB") [("code", .str "AMB"), ("display", .str "ambulatory")]
     rfl rfl rfl rfl rfl⟩

/-- Helper: on a list of strings the string-list conversion succeeds and
keeps the entries. -/
theorem strList_of_all_str {l : List JValue} (h : ∀ v ∈ l, ∃ s, v = JValue.str s) :
    strList l = some (l.filterMap (fun v => match v with | JValue.str s => some s | _ => none)) := by
  induction l with
  | nil => rfl
  | cons v rest ih =>
    obtain ⟨s, rfl⟩ := h v (List.mem_cons_self v rest)
    rw [strList, ih (fun w hw => h w (List.mem_cons_of_mem _ hw))]
    simp [List.filterMap_cons]

/-- Helper: on a well-formed feature the guarded row builder never fails:
it returns exactly the row the spec words describe, none when the name key
is missing. -/
theorem variableRowCaught_eq (t : String) (ety : JValue) {f : JValue} (hwf : VarWf f) :
    variableRowCaught t ety f = .ok (specRow t ety f) := by
  obtain ⟨ffs, rfl, hdesc, hgen⟩ := hwf
  cases hn : getField ffs "name" with
  | none =>
    simp [variableRowCaught, variableRowBody, JValue.getItem, hn, specRow]
  | some nm =>
    rcases hdesc with hdesc | ⟨s, hdesc⟩ <;> rcases hgen with hgen | ⟨l, hgen, hstr⟩
    · simp [variableRowCaught, variableRowBody, JValue.getItem, JValue.getAttrD, hn,
        hdesc, hgen, specRow, specLabel, descOf, genOf, pyJoinSpace, strList, specScript, pyStr]
    · simp [variableRowCaught, variableRowBody, JValue.getItem, JValue.getAttrD, hn,
        hdesc, hgen, specRow, specLabel, descOf, genOf, pyJoinSpace,
        strList_of_all_str hstr, specScript, pyStr]
    · simp [variableRowCaught, variableRowBody, JValue.getItem, JValue.getAttrD, hn,
        hdesc, hgen, specRow, specLabel, descOf, genOf, pyJoinSpace, strList, specScript, pyStr]
    · simp [variableRowCaught, variableRowBody, JValue.getItem, JValue.getAttrD, hn,
        hdesc, hgen, specRow, specLabel, descOf, genOf, pyJoinSpace,
        strList_of_all_str hstr, specScript, pyStr]

/-- Helper: the variable loop on well-formed features collects the spec
rows in order. -/
theorem variablesLoop_eq (t : String) (ety : JValue) {l : List JValue}
    (h : ∀ f ∈ l, VarWf f) :
    variablesLoop t ety l = .ok (l.filterMap (specRow t ety)) := by
  induction l with
  | nil => rfl
  | cons f rest ih =>
    rw [variablesLoop, variableRowCaught_eq t ety (h f (List.mem_cons_self f rest)),
      ih (fun g hg => h g (List.mem_cons_of_mem _ hg))]
    cases hr : specRow t ety f <;> simp [List.filterMap_cons, hr]

/-- Helper: on a well-formed descriptor the variable extractor returns one
row per feature then outcome with a name, in input order. -/
theorem extract_variables_eq {fields : List (String × JValue)} {fs os : List JValue}
    (t : String) (ety : JValue)
    (hf : getField fields "features" = some (.arr fs))
    (ho : getField fields "outcomes" = some (.arr os))
    (h : ∀ f ∈ fs ++ os, VarWf f) :
    extract_variables (.obj fields) t ety = .ok ((fs ++ os).filterMap (specRow t ety)) := by
  simp [extract_variables, extract_variables_body, JValue.getAttrD, hf, ho, pyConcat, pyIter,
    variablesLoop_eq t ety h]

/-- C4: the Variable Extractor returns one row per entry of features then
outcomes with order preserved, each row being the seven columns (table,
name, resolved valueType, entityType, empty unit, label, script); a feature
missing its name key is skipped while all others still produce rows; and on
the demo descriptor with the single NUMERIC age feature it yields exactly
the single expected row. -/
theorem C4_variable_extractor :
    (∀ (fields : List (String × JValue)) (fs os : List JValue) (t : String) (ety : JValue),
      getField fields "features" = some (.arr fs) →
      getField fields "outcomes" = some (.arr os) →
      (∀ f ∈ fs ++ os, VarWf f) →
      extract_variables (.obj fields) t ety = .ok ((fs ++ os).filterMap (specRow t ety))) ∧
    (∀ (t : String) (ety : JValue) (ffs : List (String × JValue)),
      specRow t ety (.obj ffs) = none ↔ getField ffs "name" = none) ∧
    (∀ (t : String) (ety : JValue) (ffs : List (String × JValue)) (nm : JValue),
      getField ffs "name" = some nm →
      specRow t ety (.obj ffs) =
        some ⟨t, nm, determine_value_type (.obj ffs), ety, "", specLabel ffs, specScript nm⟩) ∧
    extract_variables (.obj [("features", .arr [.obj [("name", .str "age"),
        ("dataType", .str "NUMERIC")]]), ("outcomes", .arr [])]) "demo" (.str "participant")
      = .ok [⟨"demo", .str "age", "decimal", .str "participant", "", "", "$(\x27age\x27)"⟩] := by
  refine ⟨fun fields fs os t ety hf ho h => extract_variables_eq t ety hf ho h, ?_, ?_, rfl⟩
  · intro t ety ffs
    cases hn : getField ffs "name" <;> simp [specRow, hn]
  · intro t ety ffs nm hn
    simp [specRow, hn]

/-- Witness for C4: the extractor evaluated on a concrete descriptor whose
first feature lacks a name and is skipped while the remaining feature and
outcome produce their rows. -/
theorem C4_variable_extractor_witness :
    extract_variables (.obj [("features", .arr [.obj [("dataType", .str "NUMERIC")],
        .obj [("name", .str "b"), ("dataType", .str "BOOLEAN")]]),
      ("outcomes", .arr [.obj [("name", .str "o"), ("dataType", .str "DATETIME")]])])
      "t" (.str "p")
      = .ok [⟨"t", .str "b", "boolean", .str "p", "", "", "$(\x27b\x27)"⟩,
             ⟨"t", .str "o", "datetime", .str "p", "", "", "$(\x27o\x27)"⟩] :=
  (C4_variable_extractor.1 [("features", .arr [.obj [("dataType", .str "NUMERIC")],
        .obj [("name", .str "b"), ("dataType", .str "BOOLEAN")]]),
      ("outcomes", .arr [.obj [("name", .str "o"), ("dataType", .str "DATETIME")]])]
    [.obj [("dataType", .str "NUMERIC")], .obj [("name", .str "b"), ("dataType", .str "BOOLEAN")]]
    [.obj [("name", .str "o"), ("dataType", .str "DATETIME")]] "t" (.str "p") rfl rfl
    (by
      intro f hf
      simp only [List.cons_append, List.nil_append, List.mem_cons, List.not_mem_nil,
        or_false] at hf
      rcases hf with rfl | rfl | rfl
      · exact ⟨_, rfl, Or.inl rfl, Or.inl rfl⟩
      · exact ⟨_, rfl, Or.inl rfl, Or.inl rfl⟩
      · exact ⟨_, rfl, Or.inl rfl, Or.inl rfl⟩)).trans rfl

/-- Helper: the guarded category row builder on object inputs: none exactly
when the feature name is missing. -/
theorem categoryRowCaught_eq (t : String) (ffs cfs : List (String × JValue)) :
    categoryRowCaught t (.obj ffs) (.obj cfs) =
      .ok (match getField ffs "name" with
           | none => none
           | some nm => specCatRowFn t nm (.obj cfs)) := by
  cases hn : getField ffs "name" <;>
    simp [categoryRowCaught, categoryRowBody, JValue.getItem, JValue.getAttrD, hn, specCatRowFn]

/-- Helper: the concept loop over object concepts collects one row per
concept, or nothing when the feature name is missing. -/
theorem conceptsLoop_eq (t : String) (ffs : List (String × JValue)) {cs : List JValue}
    (h : ∀ c ∈ cs, ∃ cfs, c = JValue.obj cfs) :
    conceptsLoop t (.obj ffs) cs =
      .ok (match getField ffs "name" with
           | none => []
           | some nm => cs.filterMap (specCatRowFn t nm)) := by
  induction cs with
  | nil => cases hn : getField ffs "name" <;> simp [conceptsLoop]
  | cons c rest ih =>
    obtain ⟨cfs, rfl⟩ := h c (List.mem_cons_self c rest)
    rw [conceptsLoop, categoryRowCaught_eq,
      ih (fun d hd => h d (List.mem_cons_of_mem _ hd))]
    cases hn : getField ffs "name" <;> simp [hn, List.filterMap_cons, specCatRowFn]

/-- Helper: on a well-formed feature the per-feature category extraction
never fails and returns the spec rows. -/
theorem categoriesForFeature_eq (t : String) {f : JValue} (hwf : CatWf f) :
    categoriesForFeature t f = .ok (specCatRows t f) := by
  obtain ⟨ffs, rfl, hdt, hvs⟩ := hwf
  rcases hdt with hdt | ⟨s, hdt⟩
  · simp [categoriesForFeature, nominalSelect, JValue.getAttrD, hdt, pyUpperStr,
      specCatRows, dataTypeStr, pyUpper]
  · by_cases hup : pyUpper s = "NOMINAL"
    · rcases hvs with hvs | ⟨vsf, hvs, hcc⟩
      · simp [categoriesForFeature, nominalSelect, JValue.getAttrD, hdt, pyUpperStr, hup,
          JValue.hasKey, hvs, specCatRows, dataTypeStr]
      · rcases hcc with hcc | ⟨cs, hcc, hobj⟩
        · cases hn : getField ffs "name" <;>
            simp [categoriesForFeature, nominalSelect, JValue.getAttrD, hdt, pyUpperStr, hup,
              JValue.hasKey, hvs, JValue.getItem, hcc, pyIter, conceptsLoop, hn,
              specCatRows, dataTypeStr]
        · rw [categoriesForFeature]
          simp only [nominalSelect, JValue.getAttrD, hdt, Option.getD_some, pyUpperStr, hup,
            reduceIte, JValue.hasKey, hvs, Option.isSome_some, JValue.getItem, hcc, pyIter]
          rw [conceptsLoop_eq t ffs hobj]
          cases hn : getField ffs "name" <;>
            simp [hn, specCatRows, dataTypeStr, hdt, hup, hvs, hcc]
    · simp [categoriesForFeature, nominalSelect, JValue.getAttrD, hdt, pyUpperStr, hup,
        specCatRows, dataTypeStr]

/-- Helper: the feature loop concatenates the per-feature category rows in
order. -/
theorem featuresLoop_eq (t : String) {fs : List JValue} (h : ∀ f ∈ fs, CatWf f) :
    featuresLoop t fs = .ok (fs.flatMap (specCatRows t)) := by
  induction fs with
  | nil => rfl
  | cons f rest ih =>
    rw [featuresLoop, categoriesForFeature_eq t (h f (List.mem_cons_self f rest)),
      ih (fun g hg => h g (List.mem_cons_of_mem _ hg))]
    simp [List.flatMap_cons]

/-- Helper: on a well-formed descriptor the category extractor returns the
concatenated spec rows of the features list. -/
theorem extract_categories_eq {fields : List (String × JValue)} {fs : List JValue} (t : String)
    (hf : getField fields "features" = some (.arr fs)) (h : ∀ f ∈ fs, CatWf f) :
    extract_categories (.obj fields) t = .ok (fs.flatMap (specCatRows t)) := by
  simp [extract_categories, extract_categories_body, JValue.getAttrD, hf, pyIter,
    featuresLoop_eq t h]

/-- C5: the Category Extractor emits rows only for features (never
outcomes) whose upper-cased dataType is NOMINAL and whose valueSet is
present, one row per concept in order, of the shape (table, feature name,
code, empty, 0, display) with code and display defaulting to the empty
string; the sex example yields exactly the two rows with codes M and F. -/
theorem C5_category_extractor :
    (∀ (fields : List (String × JValue)) (fs : List JValue) (t : String),
      getField fields "features" = some (.arr fs) →
      (∀ f ∈ fs, CatWf f) →
      extract_categories (.obj fields) t = .ok (fs.flatMap (specCatRows t))) ∧
    (∀ (t : String) (ffs : List (String × JValue)),
      pyUpper (dataTypeStr ffs) ≠ "NOMINAL" → specCatRows t (.obj ffs) = []) ∧
    (∀ (t : String) (ffs : List (String × JValue)),
      getField ffs "valueSet" = none → specCatRows t (.obj ffs) = []) ∧
    (∀ (fields1 fields2 : List (String × JValue)) (t : String),
      getField fields1 "features" = getField fields2 "features" →
      extract_categories (.obj fields1) t = extract_categories (.obj fields2) t) ∧
    (∀ (t : String) (nm : JValue) (cfs : List (String × JValue)),
      specCatRowFn t nm (.obj cfs) =
        some ⟨t, nm, (getField cfs "code").getD (.str ""), "", 0,
              (getField cfs "display").getD (.str "")⟩) ∧
    extract_categories (.obj [("features", .arr [.obj [("name", .str "sex"),
        ("dataType", .str "NOMINAL"),
        ("valueSet", .obj [("concept", .arr [.obj [("code", .str "M"), ("display", .str "Male")],
          .obj [("code", .str "F"), ("display", .str "Female")]])])]]),
      ("outcomes", .arr [.obj [("name", .str "ignored"), ("dataType", .str "NOMINAL"),
        ("valueSet", .obj [("concept", .arr [.obj [("code", .str "X")]])])]])]) "t"
      = .ok [⟨"t", .str "sex", .str "M", "", 0, .str "Male"⟩,
             ⟨"t", .str "sex", .str "F", "", 0, .str "Female"⟩] := by
  refine ⟨fun fields fs t hf h => extract_categories_eq t hf h, ?_, ?_, ?_, fun t nm cfs => rfl, rfl⟩
  · intro t ffs hup
    simp [specCatRows, hup]
  · intro t ffs hvs
    cases hup : decide (pyUpper (dataTypeStr ffs) = "NOMINAL") <;>
      simp_all [specCatRows, hvs]
  · intro fields1 fields2 t h
    simp [extract_categories, extract_categories_body, JValue.getAttrD, h]

/-- Witness for C5: the extractor evaluated on a concrete descriptor with
one NOMINAL and one NUMERIC feature. -/
theorem C5_category_extractor_witness :
    extract_categories (.obj [("features", .arr [.obj [("name", .str "sex"),
        ("dataType", .str "NOMINAL"),
        ("valueSet", .obj [("concept", .arr [.obj [("code", .str "M"), ("display", .str "Male")],
          .obj [("code", .str "F"), ("display", .str "Female")]])])],
        .obj [("name", .str "age"), ("dataType", .str "NUMERIC")]])]) "demo"
      = .ok [⟨"demo", .str "sex", .str "M", "", 0, .str "Male"⟩,
             ⟨"demo", .str "sex", .str "F", "", 0, .str "Female"⟩] :=
  (C5_category_extractor.1 [("features", .arr [.obj [("name", .str "sex"),
        ("dataType", .str "NOMINAL"),
        ("valueSet", .obj [("concept", .arr [.obj [("code", .str "M"), ("display", .str "Male")],
          .obj [("code", .str "F"), ("display", .str "Female")]])])],
        .obj [("name", .str "age"), ("dataType", .str "NUMERIC")]])]
    [.obj [("name", .str "sex"), ("dataType", .str "NOMINAL"),
        ("valueSet", .obj [("concept", .arr [.obj [("code", .str "M"), ("display", .str "Male")],
          .obj [("code", .str "F"), ("display", .str "Female")]])])],
     .obj [("name", .str "age"), ("dataType", .str "NUMERIC")]] "demo" rfl
    (by
      intro f hf
      simp only [List.mem_cons, List.not_mem_nil, or_false] at hf
      rcases hf with rfl | rfl
      · exact ⟨_, rfl, Or.inr ⟨"NOMINAL", rfl⟩,
          Or.inr ⟨_, rfl, Or.inr ⟨_, rfl, by
            intro c hc
            simp only [List.mem_cons, List.not_mem_nil, or_false] at hc
            rcases hc with rfl | rfl
            · exact ⟨_, rfl⟩
            · exact ⟨_, rfl⟩⟩⟩⟩
      · exact ⟨_, rfl, Or.inr ⟨"NUMERIC", rfl⟩, Or.inl rfl⟩)).trans rfl

/-- The display a category row shows for one concept: the defaulted display
field of an object concept. -/
def displayOfConcept (c : JValue) : JValue :=
  match c with
  | .obj cfs => (getField cfs "display").getD (.str "")
  | _ => .null

/-- Helper: a filterMap whose function is total on the list is a map. -/
theorem filterMap_all_some {α β : Type} {l : List α} {f : α → Option β} {g : α → β}
    (h : ∀ x ∈ l, f x = some (g x)) : l.filterMap f = l.map g := by
  induction l with
  | nil => rfl
  | cons a rest ih =>
    rw [List.filterMap_cons, h a (List.mem_cons_self a rest),
      ih (fun x hx => h x (List.mem_cons_of_mem _ hx)), List.map_cons]

/-- Helper: when the defined values of an optional projection over a list
are distinct, any two elements of the list have distinct defined values. -/
theorem pairwise_ne_of_filterMap_nodup {α β : Type} (g : α → Option β) {l : List α}
    (h : (l.filterMap g).Nodup) :
    l.Pairwise (fun a b => ∀ x, g a = some x → ∀ y, g b = some y → x ≠ y) := by
  induction l with
  | nil => exact List.Pairwise.nil
  | cons a rest ih =>
    rw [List.filterMap_cons] at h
    cases hg : g a with
    | none =>
      rw [hg] at h
      refine List.Pairwise.cons ?_ (ih h)
      intro b hb x hx
      rw [hg] at hx
      cases hx
    | some x0 =>
      rw [hg] at h
      refine List.Pairwise.cons ?_ (ih (List.nodup_cons.mp h).2)
      intro b hb x hx y hy hxy
      rw [hg] at hx
      injection hx with hx
      subst hx
      subst hxy
      exact (List.nodup_cons.mp h).1 (List.mem_filterMap.mpr ⟨b, hb, hy⟩)

/-- Helper: the name column of the extracted variable rows is exactly the
list of feature names that are present. -/
theorem map_name_filterMap_specRow (t : String) (ety : JValue) (l : List JValue) :
    (l.filterMap (specRow t ety)).map VariableRow.name = l.filterMap nameOfFeature := by
  rw [List.map_filterMap]
  congr 1
  funext f
  cases f <;> simp [specRow, nameOfFeature]
  case obj ffs => cases hn : getField ffs "name" <;> simp [hn]

/-- Helper: every (variable, code) pair of the rows of one well-formed
feature carries that feature name as first component. -/
theorem mem_specCatRows_pair {t : String} {f : JValue} {p : JValue × JValue} (hwf : CatWf f)
    (hp : p ∈ (specCatRows t f).map (fun r => (r.variableName, r.name))) :
    nameOfFeature f = some p.1 := by
  obtain ⟨ffs, rfl, hdt, hvs⟩ := hwf
  rw [specCatRows] at hp
  by_cases hup : pyUpper (dataTypeStr ffs) = "NOMINAL"
  case neg => rw [if_neg hup] at hp; simp at hp
  rw [if_pos hup] at hp
  rcases hvs with hvs | ⟨vsf, hvs, hcc⟩
  · simp only [hvs] at hp; simp at hp
  simp only [hvs] at hp
  cases hn : getField ffs "name" with
  | none => simp only [hn] at hp; simp at hp
  | some nm =>
    simp only [hn] at hp
    rcases List.mem_map.mp hp with ⟨r, hr, rfl⟩
    rcases List.mem_filterMap.mp hr with ⟨c, hc, hfc⟩
    cases c with
    | obj cfs =>
      simp only [specCatRowFn] at hfc
      injection hfc with hfc
      subst hfc
      simp [nameOfFeature, hn]
    | null => simp [specCatRowFn] at hfc
    | bool b => simp [specCatRowFn] at hfc
    | int n => simp [specCatRowFn] at hfc
    | float q => simp [specCatRowFn] at hfc
    | str s => simp [specCatRowFn] at hfc
    | arr l2 => simp [specCatRowFn] at hfc

/-- Helper: within one well-formed feature with distinct concept codes the
(variable, code) pairs are distinct. -/
theorem specCatRows_pairs_nodup (t : String) {f : JValue} (hwf : CatWf f)
    (hcodes : ∀ ffs, f = JValue.obj ffs → ((conceptsOf ffs).map codeOfConcept).Nodup) :
    ((specCatRows t f).map (fun r => (r.variableName, r.name))).Nodup := by
  obtain ⟨ffs, rfl, hdt, hvs⟩ := hwf
  specialize hcodes ffs rfl
  rw [specCatRows]
  by_cases hup : pyUpper (dataTypeStr ffs) = "NOMINAL"
  case neg => rw [if_neg hup]; simp
  rw [if_pos hup]
  rcases hvs with hvs | ⟨vsf, hvs, hcc⟩
  · simp only [hvs]; simp
  simp only [hvs]
  cases hn : getField ffs "name" with
  | none => simp
  | some nm =>
    simp only []
    rcases hcc with hcc | ⟨cs, hcc, hobj⟩
    · simp only [hcc]; simp
    simp only [hcc]
    have hall : ∀ c ∈ cs, specCatRowFn t nm c =
        some ⟨t, nm, codeOfConcept c, "", 0, displayOfConcept c⟩ := by
      intro c hc
      obtain ⟨cfs, rfl⟩ := hobj c hc
      simp [specCatRowFn, codeOfConcept, displayOfConcept]
    rw [filterMap_all_some hall, List.map_map]
    have hcs : conceptsOf ffs = cs := by simp [conceptsOf, hvs, hcc]
    rw [hcs] at hcodes
    have hcomp : ((fun r => (r.variableName, r.name)) ∘
        fun c => (⟨t, nm, codeOfConcept c, "", 0, displayOfConcept c⟩ : CategoryRow)) =
        (fun cd => (nm, cd)) ∘ codeOfConcept := rfl
    rw [hcomp, ← List.map_map]
    exact hcodes.map (fun a b hab => congrArg Prod.snd hab)

/-- C6 amended: in a Dictionary Mapper run over a well-formed descriptor
whose present feature and outcome names are pairwise distinct, the variable
row names are unique; and when additionally every feature has pairwise
distinct concept codes, the category (variable, code) pairs are unique. The
code never deduplicates, so the distinctness of the inputs is required. -/
theorem C6_uniqueness_corrected :
    ∀ (fields : List (String × JValue)) (fs os : List JValue) (t : String) (ety : JValue)
      (vrows : List VariableRow) (crows : List CategoryRow),
      getField fields "features" = some (.arr fs) →
      getField fields "outcomes" = some (.arr os) →
      (∀ f ∈ fs ++ os, VarWf f) →
      (∀ f ∈ fs, CatWf f) →
      ((fs ++ os).filterMap nameOfFeature).Nodup →
      (∀ f ∈ fs, ∀ ffs, f = JValue.obj ffs → ((conceptsOf ffs).map codeOfConcept).Nodup) →
      extract_variables (.obj fields) t ety = .ok vrows →
      extract_categories (.obj fields) t = .ok crows →
      (vrows.map VariableRow.name).Nodup ∧
      (crows.map (fun r => (r.variableName, r.name))).Nodup := by
  intro fields fs os t ety vrows crows hf ho hvwf hcwf hnames hcodes hev hec
  rw [extract_variables_eq t ety hf ho hvwf] at hev
  injection hev with hev
  subst hev
  rw [extract_categories_eq t hf hcwf] at hec
  injection hec with hec
  subst hec
  constructor
  · rw [map_name_filterMap_specRow]
    exact hnames
  · rw [List.map_flatMap]
    refine List.nodup_flatMap.mpr ⟨?_, ?_⟩
    · intro f hfm
      exact specCatRows_pairs_nodup t (hcwf f hfm) (fun ffs hff => hcodes f hfm ffs hff)
    · have hfs_nodup : (fs.filterMap nameOfFeature).Nodup := by
        rw [List.filterMap_append] at hnames
        exact (List.nodup_append.mp hnames).1
      have hpw := pairwise_ne_of_filterMap_nodup nameOfFeature hfs_nodup
      refine hpw.imp_of_mem ?_
      intro a b ha hb hab
      intro p hp1 hp2
      exact hab p.1 (mem_specCatRows_pair (hcwf a ha) hp1) p.1
        (mem_specCatRows_pair (hcwf b hb) hp2) rfl

/-- Counterexample to C6 as stated: a run on a descriptor whose single
NOMINAL feature carries the same concept code twice produces two category
rows with the same (variable, code) pair, so the pair-uniqueness invariant
does not hold of every run. -/
theorem C6_counterexample :
    extract_categories (.obj [("features", .arr [.obj [("name", .str "sex"),
        ("dataType", .str "NOMINAL"),
        ("valueSet", .obj [("concept", .arr [.obj [("code", .str "M")],
          .obj [("code", .str "M"), ("display", .str "duplicate")]])])]])]) "t"
      = .ok [⟨"t", .str "sex", .str "M", "", 0, .str ""⟩,
             ⟨"t", .str "sex", .str "M", "", 0, .str "duplicate"⟩] ∧
    ¬ ((([⟨"t", .str "sex", .str "M", "", 0, .str ""⟩,
          ⟨"t", .str "sex", .str "M", "", 0, .str "duplicate"⟩] : List CategoryRow).map
        (fun r => (r.variableName, r.name))).Nodup) := by
  constructor
  · rfl
  · intro h
    exact (List.nodup_cons.mp h).1 (by simp)

/-- Witness for the amended C6: the conclusion evaluated on a concrete
descriptor with one NOMINAL feature with distinct codes and one numeric
outcome. -/
theorem C6_uniqueness_corrected_witness :
    (([⟨"t", .str "sex", "text", .str "p", "", "", "$(\x27sex\x27)"⟩,
       ⟨"t", .str "out", "decimal", .str "p", "", "", "$(\x27out\x27)"⟩] : List VariableRow).map
        VariableRow.name).Nodup ∧
    (([⟨"t", .str "sex", .str "M", "", 0, .str "Male"⟩,
       ⟨"t", .str "sex", .str "F", "", 0, .str "Female"⟩] : List CategoryRow).map
        (fun r => (r.variableName, r.name))).Nodup :=
  C6_uniqueness_corrected
    [("features", .arr [.obj [("name", .str "sex"), ("dataType", .str "NOMINAL"),
        ("valueSet", .obj [("concept", .arr [.obj [("code", .str "M"), ("display", .str "Male")],
          .obj [("code", .str "F"), ("display", .str "Female")]])])]]),
     ("outcomes", .arr [.obj [("name", .str "out"), ("dataType", .str "NUMERIC")]])]
    [.obj [("name", .str "sex"), ("dataType", .str "NOMINAL"),
        ("valueSet", .obj [("concept", .arr [.obj [("code", .str "M"), ("display", .str "Male")],
          .obj [("code", .str "F"), ("display", .str "Female")]])])]]
    [.obj [("name", .str "out"), ("dataType", .str "NUMERIC")]]
    "t" (.str "p")
    [⟨"t", .str "sex", "text", .str "p", "", "", "$(\x27sex\x27)"⟩,
     ⟨"t", .str "out", "decimal", .str "p", "", "", "$(\x27out\x27)"⟩]
    [⟨"t", .str "sex", .str "M", "", 0, .str "Male"⟩,
     ⟨"t", .str "sex", .str "F", "", 0, .str "Female"⟩]
    rfl rfl
    (by
      intro f hf
      simp only [List.cons_append, List.nil_append, List.mem_cons, List.not_mem_nil,
        or_false] at hf
      rcases hf with rfl | rfl
      · exact ⟨_, rfl, Or.inl rfl, Or.inl rfl⟩
      · exact ⟨_, rfl, Or.inl rfl, Or.inl rfl⟩)
    (by
      intro f hf
      simp only [List.mem_cons, List.not_mem_nil, or_false] at hf
      subst hf
      exact ⟨_, rfl, Or.inr ⟨"NOMINAL", rfl⟩,
        Or.inr ⟨_, rfl, Or.inr ⟨_, rfl, by
          intro c hc
          simp only [List.mem_cons, List.not_mem_nil, or_false] at hc
          rcases hc with rfl | rfl
          · exact ⟨_, rfl⟩
          · exact ⟨_, rfl⟩⟩⟩⟩)
    (by simp [nameOfFeature, getField])
    (by
      intro f hf ffs heq
      simp only [List.mem_cons, List.not_mem_nil, or_false] at hf
      subst hf
      injection heq with heq
      subst heq
      simp [conceptsOf, codeOfConcept, getField])
    rfl rfl

/-- Counterexample to C2 as stated: pandas notna treats the empty string as
present, so the non-identifier column [null, x, empty] binarizes to
[0, 1, 1], not to the [0, 1, 0] the claim asserts. -/
theorem C2_counterexample :
    (transform_data [⟨"a", [.null, .str "x", .str ""]⟩] none).2
      = [⟨"a", [.int 0, .int 1, .int 1]⟩] ∧
    (transform_data [⟨"a", [.null, .str "x", .str ""]⟩] none).2
      ≠ [⟨"a", [.int 0, .int 1, .int 0]⟩] := by
  refine ⟨rfl, ?_⟩
  intro h
  rw [show (transform_data [⟨"a", [.null, .str "x", .str ""]⟩] none).2
      = [⟨"a", [.int 0, .int 1, .int 1]⟩] from rfl] at h
  simp at h

/-- C2 amended: the Availability Encoder replaces each cell of every
non-identifier column with 1 when the cell is non-null and 0 when it is
null, so an empty string counts as available and [null, x, empty] becomes
[0, 1, 1]; identifier columns pass through unchanged regardless of
content. -/
theorem C2_amended_binarization :
    (∀ (df : Table) (dictRead : Option (Except String (List String))),
      (transform_data df dictRead).2 = df.map transformColumn) ∧
    (∀ col : Column, col.name ∈ BASE_COLUMNS → transformColumn col = col) ∧
    (∀ col : Column, col.name ∉ BASE_COLUMNS →
      (transformColumn col).name = col.name ∧
      (transformColumn col).cells = col.cells.map (fun c =>
        match c with
        | JValue.null => JValue.int 0
        | _ => JValue.int 1)) ∧
    notna .null = false ∧ (∀ s, notna (.str s) = true) ∧
    (transform_data [⟨"a", [.null, .str "x", .str ""]⟩] none).2
      = [⟨"a", [.int 0, .int 1, .int 1]⟩] ∧
    (transform_data [⟨"pid", [.null, .str "x", .str ""]⟩] none).2
      = [⟨"pid", [.null, .str "x", .str ""]⟩] := by
  refine ⟨fun df dictRead => rfl, fun col h => by simp [transformColumn, h], ?_,
    rfl, fun s => rfl, rfl, rfl⟩
  intro col h
  have hfn : (fun c => JValue.int (if notna c then 1 else 0)) = fun c =>
      match c with
      | JValue.null => JValue.int 0
      | _ => JValue.int 1 := by
    funext c
    cases c <;> rfl
  constructor
  · simp [transformColumn, h]
  · simp [transformColumn, h, hfn]

/-- Witness for the amended C2: the identifier and data columns evaluated
concretely. -/
theorem C2_amended_binarization_witness :
    transformColumn ⟨"pid", [.null, .str "x"]⟩ = ⟨"pid", [.null, .str "x"]⟩ ∧
    (transformColumn ⟨"a", [.null, .str "x", .str ""]⟩).cells = [.int 0, .int 1, .int 1] :=
  ⟨C2_amended_binarization.2.1 ⟨"pid", [.null, .str "x"]⟩ (by decide),
   ((C2_amended_binarization.2.2.1 ⟨"a", [.null, .str "x", .str ""]⟩ (by decide)).2).trans rfl⟩

/-- C7: the Dictionary Validator is advisory only: the written table never
depends on the validation outcome, a dictionary read error is captured as a
warning value and never propagated, full agreement holds exactly when the
non-identifier table columns equal the dictionary names as sets, and the
example table columns pid, a, b against dictionary names a, c report b
missing in the dictionary and c missing in the table while the
transformation still runs. -/
theorem C7_validator_advisory :
    (∀ (df : Table) (dictRead : Except String (List String)),
      (transform_data df (some dictRead)).2 = (transform_data df none).2) ∧
    (∀ (df : Table) (e : String),
      (transform_data df (some (.error e))).1 = .readError e) ∧
    (∀ (cols names : List String),
      validate_dictionary cols (.ok names) = .allMatch ↔
        (cols.filter (fun c => c ∉ BASE_COLUMNS)).toFinset = names.toFinset) ∧
    validate_dictionary ["pid", "a", "b"] (.ok ["a", "c"]) = .mismatch {"b"} {"c"} ∧
    (transform_data [⟨"pid", [.int 1]⟩, ⟨"a", [.null]⟩, ⟨"b", [.str "x"]⟩]
        (some (.ok ["a", "c"]))).2
      = [⟨"pid", [.int 1]⟩, ⟨"a", [.int 0]⟩, ⟨"b", [.int 1]⟩] := by
  refine ⟨fun df d => rfl, fun df e => rfl, ?_, by decide, rfl⟩
  intro cols names
  have hval : validate_dictionary cols (.ok names) =
      (if (cols.filter (fun c => c ∉ BASE_COLUMNS)).toFinset \ names.toFinset ≠ ∅ ∨
          names.toFinset \ (cols.filter (fun c => c ∉ BASE_COLUMNS)).toFinset ≠ ∅ then
        .mismatch ((cols.filter (fun c => c ∉ BASE_COLUMNS)).toFinset \ names.toFinset)
          (names.toFinset \ (cols.filter (fun c => c ∉ BASE_COLUMNS)).toFinset)
      else .allMatch) := rfl
  rw [hval]
  by_cases h : (cols.filter (fun c => c ∉ BASE_COLUMNS)).toFinset \ names.toFinset ≠ ∅ ∨
      names.toFinset \ (cols.filter (fun c => c ∉ BASE_COLUMNS)).toFinset ≠ ∅
  · rw [if_pos h]
    constructor
    · intro hc; exact absurd hc (by simp)
    · intro heq
      exfalso
      rcases h with h1 | h1 <;> rw [heq] at h1 <;> simp at h1
  · rw [if_neg h]
    simp only [not_or, not_not] at h
    simp only [true_iff, eq_self_iff_true]
    exact Finset.Subset.antisymm (Finset.sdiff_eq_empty_iff_subset.mp h.1)
      (Finset.sdiff_eq_empty_iff_subset.mp h.2)

/-- Helper: a cell that is null or a safe string survives the render and
parse pair. -/
theorem roundtrip_cell {c : JValue}
    (h : c = .null ∨ ∃ s, c = .str s ∧ s ≠ "" ∧ parseIntCell s = none) :
    parseCell (renderCell c) = c := by
  rcases h with rfl | ⟨s, rfl, hs, hp⟩
  · rfl
  · simp [renderCell, parseCell, hs, hp]

/-- Counterexample to C8 as stated: the text rendering collapses the empty
string with null, two distinct tables render to the same text, so re-parsing
the output of the Format Converter does not recover every input table. -/
theorem C8_roundtrip_counterexample :
    parquet_to_csv [⟨"c", [.str ""]⟩] = parquet_to_csv [⟨"c", [.null]⟩] ∧
    ([⟨"c", [.str ""]⟩] : Table) ≠ [⟨"c", [.null]⟩] ∧
    read_csv (parquet_to_csv [⟨"c", [.str ""]⟩]) ≠ [⟨"c", [.str ""]⟩] := by
  refine ⟨rfl, ?_, ?_⟩
  · intro h
    simp at h
  · intro h
    rw [show read_csv (parquet_to_csv [⟨"c", [.str ""]⟩]) = [⟨"c", [.null]⟩] from rfl] at h
    simp at h

/-- C8 amended: re-parsing the rendered text table yields the input table,
with values and column order preserved, for every table whose cells are all
null or nonempty strings that do not read back as integers; in general the
rendering is lossy because null and the empty string collapse. -/
theorem C8_roundtrip_amended :
    ∀ df : Table,
      (∀ col ∈ df, ∀ c ∈ col.cells,
        c = .null ∨ ∃ s, c = .str s ∧ s ≠ "" ∧ parseIntCell s = none) →
      read_csv (parquet_to_csv df) = df := by
  intro df h
  induction df with
  | nil => rfl
  | cons col rest ih =>
    have hcol := h col (List.mem_cons_self col rest)
    have hrest := ih (fun c hc => h c (List.mem_cons_of_mem _ hc))
    show (⟨col.name, (col.cells.map renderCell).map parseCell⟩ : Column)
        :: read_csv (parquet_to_csv rest) = col :: rest
    rw [hrest]
    congr 1
    cases col with
    | mk nm cells =>
      simp only [List.map_map]
      congr 1
      have : cells.map (parseCell ∘ renderCell) = cells.map id :=
        List.map_congr_left (fun c hc => roundtrip_cell (hcol c hc))
      rw [this, List.map_id]

/-- Witness for the amended C8: a concrete safe table round-trips. -/
theorem C8_roundtrip_amended_witness :
    read_csv (parquet_to_csv [⟨"c", [.null, .str "abc"]⟩]) = [⟨"c", [.null, .str "abc"]⟩] :=
  C8_roundtrip_amended [⟨"c", [.null, .str "abc"]⟩] (by
    intro col hcol c hc
    simp only [List.mem_cons, List.not_mem_nil, or_false] at hcol
    subst hcol
    simp only [List.mem_cons, List.not_mem_nil, or_false] at hc
    rcases hc with rfl | rfl
    · exact Or.inl rfl
    · exact Or.inr ⟨"abc", rfl, by decide, by decide⟩)

end DataCatalogue
